import Mathlib

/-!
Shallow embedding of the printer-agent core (`src/index.js`):
the payload shape check, the bounded deduplicating print queue, the
per-job retry/backoff delivery loop, the persistent-connection acquire
logic, the realtime-listener backoff, and the watchdog tick.
-/

-- -------------------- CONFIG (src/index.js lines 17-21) --------------------

def PRINTER_TIMEOUT : Nat := 8000

def MAX_RETRIES : Nat := 3

def QUEUE_MAX_LENGTH : Nat := 300

def RETRY_BACKOFF_BASE : Nat := 1000

def LISTENER_BACKOFF_BASE : Nat := 1000

-- -------------------- JS VALUE MODEL --------------------

/-- Model of a JavaScript value as far as the shape check needs it:
`undefined`, `null`, booleans, numbers (as integers), strings, arrays
and plain objects (association list of fields). -/
inductive JSValue where
  | undefined : JSValue
  | null : JSValue
  | bool : Bool → JSValue
  | num : Int → JSValue
  | str : String → JSValue
  | arr : List JSValue → JSValue
  | obj : List (String × JSValue) → JSValue

/-- JavaScript `typeof` on the modelled values (`typeof null` is "object",
arrays are "object"). -/
def jsTypeof : JSValue → String
  | .undefined => "undefined"
  | .null => "object"
  | .bool _ => "boolean"
  | .num _ => "number"
  | .str _ => "string"
  | .arr _ => "object"
  | .obj _ => "object"

/-- JavaScript truthiness of the modelled values. -/
def jsTruthy : JSValue → Bool
  | .undefined => false
  | .null => false
  | .bool b => b
  | .num n => n != 0
  | .str s => s != ""
  | .arr _ => true
  | .obj _ => true

/-- Property access `v.k`: field lookup on objects, `undefined` otherwise
(matching non-throwing JS property access on primitives). -/
def getField (v : JSValue) (k : String) : JSValue :=
  match v with
  | .obj fields => (fields.lookup k).getD .undefined
  | _ => .undefined

/-- JavaScript `Array.isArray`. -/
def isArray : JSValue → Bool
  | .arr _ => true
  | _ => false

/-- Embeds `isValidJobPayload` (src/index.js lines 80-86): payload must be a
truthy object, `invoice` a truthy object, `totals` truthy with numeric
`totals.total`, and `items` an array. -/
def isValidJobPayload (p : JSValue) : Bool :=
  if !jsTruthy p || jsTypeof p != "object" then false
  else if !jsTruthy (getField p "invoice") || jsTypeof (getField p "invoice") != "object" then false
  else if !jsTruthy (getField p "totals")
      || jsTypeof (getField (getField p "totals") "total") != "number" then false
  else if !isArray (getField p "items") then false
  else true

-- -------------------- QUEUE MODEL (src/index.js lines 351-391) --------------------

/-- A queue entry: the job id with its payload. -/
structure QJob where
  id : Nat
  payload : JSValue

/-- State of the `PrintQueue` class: `concurrency`, `maxLength`, the
internal `queue` buffer, and the `running` counter. -/
structure PrintQueue where
  concurrency : Nat
  maxLength : Nat
  queue : List QJob
  running : Nat

/-- Embeds `PrintQueue.push` (src/index.js lines 363-375): reject when the
buffer is at `maxLength`, reject when an entry with the same `id` is already
buffered, otherwise append and accept. -/
def PrintQueue.push (q : PrintQueue) (job : QJob) : PrintQueue × Bool :=
  if q.queue.length ≥ q.maxLength then (q, false)
  else if q.queue.any (fun j => j.id == job.id) then (q, false)
  else ({ q with queue := q.queue ++ [job] }, true)

/-- Embeds the dequeue step of `PrintQueue.next` (src/index.js lines
377-381): return nothing when `running ≥ concurrency` or the buffer is
empty, otherwise shift the front entry out and increment `running`. -/
def PrintQueue.next (q : PrintQueue) : PrintQueue × Option QJob :=
  if q.running ≥ q.concurrency then (q, none)
  else
    match q.queue with
    | [] => (q, none)
    | j :: rest => ({ q with queue := rest, running := q.running + 1 }, some j)

/-- Embeds the `finally` block of `PrintQueue.next` (src/index.js line 387):
decrement `running` when a job's processing completes. -/
def PrintQueue.finish (q : PrintQueue) : PrintQueue :=
  { q with running := q.running - 1 }

/-- Queue states reachable from a fresh `PrintQueue` by push, dequeue and
completion steps. -/
inductive Reachable : PrintQueue → Prop
  | init (concurrency maxLength : Nat) : Reachable ⟨concurrency, maxLength, [], 0⟩
  | push (q : PrintQueue) (job : QJob) (h : Reachable q) : Reachable (q.push job).1
  | next (q : PrintQueue) (h : Reachable q) : Reachable (q.next).1
  | finish (q : PrintQueue) (h : Reachable q) : Reachable q.finish

-- -------------------- LEDGER STATUS MODEL --------------------

/-- The ledger statuses of a job row (`status` column of `print_jobs`). -/
inductive Status where
  | pending : Status
  | printed : Status
  | error : Status
deriving DecidableEq, Repr

-- -------------------- DELIVERY MODEL (src/index.js lines 179-348) --------------------

/-- Observable trace of one `performPrint` call: how many connection
acquisitions were attempted, how many physical submit attempts were made,
the backoff delays awaited (in order), and whether the call resolved
(`ok = false` means it threw). -/
structure PrintTrace where
  connAcquires : Nat
  submitAttempts : Nat
  delays : List Nat
  ok : Bool
deriving DecidableEq, Repr

/-- Embeds the retry loop of `performPrint` (src/index.js lines 184-332)
for a valid payload, parameterised by per-attempt oracles: `connOk r` tells
whether `getPrinterConnection` succeeds on the attempt with `retryCount = r`,
and `submitOk r` whether the submit/timeout race then succeeds. On failure,
if `retryCount < MAX_RETRIES`, a backoff of `RETRY_BACKOFF_BASE * 2 ^
retryCount` is awaited and the whole operation reruns with `retryCount + 1`;
otherwise the error is rethrown. -/
def performPrintGo (connOk submitOk : Nat → Bool) (retryCount : Nat) : PrintTrace :=
  if connOk retryCount && submitOk retryCount then
    { connAcquires := 1, submitAttempts := 1, delays := [], ok := true }
  else
    let thisSubmit := if connOk retryCount then 1 else 0
    if h : retryCount < MAX_RETRIES then
      let rest := performPrintGo connOk submitOk (retryCount + 1)
      { connAcquires := 1 + rest.connAcquires,
        submitAttempts := thisSubmit + rest.submitAttempts,
        delays := RETRY_BACKOFF_BASE * 2 ^ retryCount :: rest.delays,
        ok := rest.ok }
    else
      { connAcquires := 1, submitAttempts := thisSubmit, delays := [], ok := false }
termination_by MAX_RETRIES - retryCount
decreasing_by omega

/-- Embeds `performPrint` (src/index.js lines 179-333) called with
`retryCount = 0`: an invalid payload throws before the `try` block, so no
connection is acquired, nothing is submitted and no backoff is awaited. -/
def performPrint (p : JSValue) (connOk submitOk : Nat → Bool) : PrintTrace :=
  if isValidJobPayload p then performPrintGo connOk submitOk 0
  else { connAcquires := 0, submitAttempts := 0, delays := [], ok := false }

/-- Embeds `printTicketSafe` (src/index.js lines 335-348): returns the list
of ledger status writes it performs for the job. The `supabase ... update`
builder resolves with an error object rather than throwing, so exactly one
write happens: `printed` when `performPrint` resolved, `error` when it
threw. -/
def printTicketSafe (p : JSValue) (connOk submitOk : Nat → Bool) : List Status :=
  if (performPrint p connOk submitOk).ok then [Status.printed] else [Status.error]

/-- Embeds `addToQueue` (src/index.js lines 395-415): an invalid payload is
marked `error` without enqueueing; otherwise the job is pushed and a
rejected push is marked `error`. Returns the new queue state and the list
of `(id, status)` ledger writes. -/
def addToQueue (q : PrintQueue) (idv : Nat) (p : JSValue) : PrintQueue × List (Nat × Status) :=
  if !isValidJobPayload p then (q, [(idv, Status.error)])
  else
    let res := q.push ⟨idv, p⟩
    if res.2 then (res.1, []) else (res.1, [(idv, Status.error)])

-- -------------------- CONNECTION MANAGER MODEL (src/index.js lines 122-158) --------------------

/-- Where the handle returned by an acquire came from: the already-ready
persistent handle, the handle installed by the other caller's in-progress
open, or a fresh physical open by this caller. -/
inductive Handle where
  | existing : Handle
  | fromOther : Handle
  | fresh : Handle
deriving DecidableEq, Repr

/-- Result of one `getPrinterConnection` call: whether this caller issued a
physical `device.open`, how many milliseconds it waited in the grace loop,
and the handle it observed (`none` means it threw). -/
structure AcquireResult where
  physicalOpen : Bool
  waitedMs : Nat
  handle : Option Handle
deriving DecidableEq, Repr

/-- Embeds the grace-wait loop of `getPrinterConnection` (src/index.js lines
127-132): `while (isDeviceInitializing && waited < 5000) { await wait(200);
waited += 200 }`, where the in-progress open completes (clearing
`isDeviceInitializing`) at time `otherDoneAt`. Returns the final `waited`. -/
def graceWait (otherDoneAt : Nat) (waited : Nat) : Nat :=
  if waited < otherDoneAt ∧ waited < 5000 then graceWait otherDoneAt (waited + 200)
  else waited
termination_by 5000 - waited
decreasing_by omega

/-- Embeds `getPrinterConnection` (src/index.js lines 122-158) as a function
of the state at call time (`ready`: persistent device and printer present;
`initializing`: another open in progress) and of the environment: the other
open completes at `otherDoneAt` ms and succeeds iff `otherOk`; this caller's
own physical open succeeds iff `selfOk`. -/
def getPrinterConnection (ready initializing : Bool) (otherDoneAt : Nat)
    (otherOk selfOk : Bool) : AcquireResult :=
  if ready then { physicalOpen := false, waitedMs := 0, handle := some Handle.existing }
  else
    let waited := if initializing then graceWait otherDoneAt 0 else 0
    if initializing && decide (otherDoneAt ≤ waited) && otherOk then
      { physicalOpen := false, waitedMs := waited, handle := some Handle.fromOther }
    else if selfOk then { physicalOpen := true, waitedMs := waited, handle := some Handle.fresh }
    else { physicalOpen := true, waitedMs := waited, handle := none }

-- -------------------- LISTENER BACKOFF (src/index.js lines 477-490) --------------------

/-- Embeds the resubscribe delay computation
`LISTENER_BACKOFF_BASE * Math.pow(2, Math.max(0, listenerAttempt - 1))`
(src/index.js lines 478 and 489). -/
def listenerBackoff (listenerAttempt : Nat) : Nat :=
  LISTENER_BACKOFF_BASE * 2 ^ (max 0 (listenerAttempt - 1))

-- -------------------- WATCHDOG TICK (src/index.js lines 503-519) --------------------

/-- JavaScript `String.prototype.toUpperCase` on the (ASCII) channel state
strings: uppercase every character. -/
def jsToUpperCase (s : String) : String := String.mk (s.data.map Char.toUpper)

/-- The channel states that make the watchdog restart the listener
(src/index.js line 506). -/
def watchdogRestartStates : List String := ["CLOSED", "ERRORED", "CHANNEL_ERROR"]

/-- Embeds one watchdog tick (src/index.js lines 503-519) as a function of
the current channel (`none` when absent, otherwise its state string):
returns whether `setupListener` is invoked and whether `processPending`
runs. `processPending` is called unconditionally. -/
def watchdogTick (channel : Option String) : Bool × Bool :=
  let shouldRestart :=
    match channel with
    | none => true
    | some st => watchdogRestartStates.contains (jsToUpperCase st)
  (shouldRestart, true)

-- -------------------- CONSUMPTION LOOP EVENTS (src/index.js lines 377-390) --------------------

/-- Observable events of the single-worker consumption loop: a job starts,
a job finishes, or the loop awaits a timed pause of `n` ms. -/
inductive QEvent where
  | start : Nat → QEvent
  | done : Nat → QEvent
  | pauseMs : Nat → QEvent
deriving DecidableEq, Repr

/-- Embeds the event sequence produced when the current `PrintQueue.next`
(src/index.js lines 377-390) drains a buffer with a single worker: each job
runs to completion and the `finally` block immediately reschedules `next`
via `setImmediate`, with no timed wait between jobs. -/
def drainEvents : List QJob → List QEvent
  | [] => []
  | j :: rest => QEvent.start j.id :: QEvent.done j.id :: drainEvents rest

/-- Embeds the event sequence of the legacy `processQueue` (the second
document in src/index.js, lines 748-764), which awaited
`setTimeout(r, 3000)` after each job before starting the next. -/
def drainEventsLegacy : List QJob → List QEvent
  | [] => []
  | j :: rest => QEvent.start j.id :: QEvent.done j.id :: QEvent.pauseMs 3000 :: drainEventsLegacy rest

/-- A concrete valid payload (object with `invoice` object, numeric
`totals.total`, array `items`). -/
def examplePayload : JSValue :=
  JSValue.obj
    [("invoice", JSValue.obj [("number", JSValue.str "F-1")]),
     ("totals", JSValue.obj [("total", JSValue.num 100)]),
     ("items", JSValue.arr [])]

-- ==================== THEOREMS ====================

/-- A push whose id is already buffered is rejected with the state unchanged
(no reachability needed: both the full-queue branch and the duplicate branch
return the state untouched). -/
theorem push_duplicate_rejected (q : PrintQueue) (job : QJob)
    (hmem : job.id ∈ q.queue.map QJob.id) : q.push job = (q, false) := by
  unfold PrintQueue.push
  split
  · rfl
  · rw [if_pos]
    rw [List.any_eq_true]
    obtain ⟨k, hk, hkid⟩ := List.mem_map.1 hmem
    exact ⟨k, hk, by simp [hkid]⟩

/-- The buffer ids stay duplicate-free along every reachable state. -/
theorem reachable_nodup (q : PrintQueue) (h : Reachable q) :
    (q.queue.map QJob.id).Nodup := by
  induction h with
  | init c m => simp
  | push q job hq ih =>
      unfold PrintQueue.push
      split
      · simpa using ih
      · split
        · simpa using ih
        · next hany =>
          have hnot : job.id ∉ q.queue.map QJob.id := by
            intro hmem
            obtain ⟨k, hk, hkid⟩ := List.mem_map.1 hmem
            exact hany (List.any_eq_true.2 ⟨k, hk, by simp [hkid]⟩)
          simp only [List.map_append, List.map_cons, List.map_nil]
          rw [List.nodup_append]
          exact ⟨ih, List.nodup_singleton _, by simpa [List.disjoint_singleton] using hnot⟩
  | next q hq ih =>
      unfold PrintQueue.next
      split
      · simpa using ih
      · split
        · simpa using ih
        · next j rest hqq =>
          have := ih
          rw [hqq] at this
          simpa using (List.nodup_cons.1 (by simpa using this)).2
  | finish q hq ih => simpa [PrintQueue.finish] using ih

/-- C3: at every instant the Work Queue's buffer contains no two entries
with the same id: every queue state reachable by push/dequeue/finish steps
has duplicate-free buffer ids, and a push whose id is already buffered
returns `false` with the buffer unchanged. -/
theorem C3_queue_nodup (q : PrintQueue) (h : Reachable q) :
    (q.queue.map QJob.id).Nodup ∧
    ∀ job : QJob, job.id ∈ q.queue.map QJob.id → q.push job = (q, false) :=
  ⟨reachable_nodup q h, fun job hmem => push_duplicate_rejected q job hmem⟩

/-- Witness for C3 at a concrete reachable state: after pushing job 7 into
a fresh queue, the ids are duplicate-free and a second push of id 7 is
rejected unchanged. -/
theorem C3_witness :
    (((PrintQueue.mk 1 300 [] 0).push ⟨7, JSValue.null⟩).1.queue.map QJob.id).Nodup ∧
    ((PrintQueue.mk 1 300 [] 0).push ⟨7, JSValue.null⟩).1.push ⟨7, JSValue.null⟩ =
      (((PrintQueue.mk 1 300 [] 0).push ⟨7, JSValue.null⟩).1, false) := by
  have hr : Reachable ((PrintQueue.mk 1 300 [] 0).push ⟨7, JSValue.null⟩).1 :=
    Reachable.push _ _ (Reachable.init 1 300)
  have h := C3_queue_nodup _ hr
  exact ⟨h.1, h.2 ⟨7, JSValue.null⟩ (by decide)⟩

/-- C4: when the buffer is at or above `maxLength`, any push returns
`false` with the state unchanged, and `addToQueue` for any payload then
writes exactly one `error` status for that id without growing the queue. -/
theorem C4_full_queue_reject (q : PrintQueue) (job : QJob) (idv : Nat) (p : JSValue)
    (h : q.queue.length ≥ q.maxLength) :
    q.push job = (q, false) ∧ addToQueue q idv p = (q, [(idv, Status.error)]) := by
  have hpush : ∀ jb : QJob, q.push jb = (q, false) := by
    intro jb
    unfold PrintQueue.push
    rw [if_pos h]
  refine ⟨hpush job, ?_⟩
  unfold addToQueue
  split
  · rfl
  · simp [hpush ⟨idv, p⟩]

/-- Witness for C4 at a queue with `maxLength = 0` (already full): the push
is rejected and `addToQueue` writes `error`. -/
theorem C4_witness :
    (PrintQueue.mk 1 0 [] 0).push ⟨7, JSValue.null⟩ = (PrintQueue.mk 1 0 [] 0, false) ∧
    addToQueue (PrintQueue.mk 1 0 [] 0) 7 JSValue.null =
      (PrintQueue.mk 1 0 [] 0, [(7, Status.error)]) :=
  C4_full_queue_reject (PrintQueue.mk 1 0 [] 0) ⟨7, JSValue.null⟩ 7 JSValue.null (by decide)

/-- C10: the duplicate check inspects only the buffer, not the job in
flight: once `next` has dequeued the job with id X, a push of a fresh entry
with the same id X (buffer below capacity, X absent from the buffer) is
accepted and enqueued. -/
theorem C10_inflight_not_deduped (q q' : PrintQueue) (j job : QJob)
    (_hnext : q.next = (q', some j))
    (_hid : job.id = j.id)
    (hlen : q'.queue.length < q'.maxLength)
    (habs : ∀ k ∈ q'.queue, k.id ≠ job.id) :
    q'.push job = ({ q' with queue := q'.queue ++ [job] }, true) := by
  have h1 : ¬ q'.queue.length ≥ q'.maxLength := by omega
  have h2 : ¬ (q'.queue.any fun k => k.id == job.id) = true := by
    rw [List.any_eq_true]
    rintro ⟨k, hk, hkid⟩
    exact habs k hk (by simpa using hkid)
  unfold PrintQueue.push
  rw [if_neg h1, if_neg h2]

/-- Witness for C10: job 5 is dequeued (in flight), then a second entry with
id 5 is accepted into the buffer. -/
theorem C10_witness :
    (PrintQueue.mk 1 300 [⟨5, JSValue.null⟩] 0).next =
      (PrintQueue.mk 1 300 [] 1, some ⟨5, JSValue.null⟩) ∧
    (PrintQueue.mk 1 300 [] 1).push ⟨5, JSValue.null⟩ =
      (PrintQueue.mk 1 300 [⟨5, JSValue.null⟩] 1, true) := by
  refine ⟨rfl, ?_⟩
  exact C10_inflight_not_deduped (PrintQueue.mk 1 300 [⟨5, JSValue.null⟩] 0)
    (PrintQueue.mk 1 300 [] 1) ⟨5, JSValue.null⟩ ⟨5, JSValue.null⟩ rfl rfl
    (by decide) (by simp)

/-- C2: every job consumed from the queue gets exactly one ledger status
write, which is `printed` when the print resolved and `error` otherwise;
no other status value is ever written by `printTicketSafe`. -/
theorem C2_one_terminal_write (p : JSValue) (connOk submitOk : Nat → Bool) :
    (printTicketSafe p connOk submitOk = [Status.printed] ∨
      printTicketSafe p connOk submitOk = [Status.error]) ∧
    (printTicketSafe p connOk submitOk).length = 1 ∧
    (printTicketSafe p connOk submitOk = [Status.printed] ↔
      (performPrint p connOk submitOk).ok = true) := by
  unfold printTicketSafe
  rcases h : (performPrint p connOk submitOk).ok <;> simp [h]

/-- C5: a payload failing the shape check is a terminal error with no
retry: `performPrint` throws immediately with no connection acquisition,
no submit attempt and no backoff; `printTicketSafe` writes `error`; and
`addToQueue` marks the row `error` without enqueueing it. -/
theorem C5_invalid_payload_terminal (p : JSValue) (q : PrintQueue) (idv : Nat)
    (connOk submitOk : Nat → Bool) (h : isValidJobPayload p = false) :
    performPrint p connOk submitOk =
      { connAcquires := 0, submitAttempts := 0, delays := [], ok := false } ∧
    printTicketSafe p connOk submitOk = [Status.error] ∧
    addToQueue q idv p = (q, [(idv, Status.error)]) := by
  refine ⟨?_, ?_, ?_⟩ <;> simp [performPrint, printTicketSafe, addToQueue, h]

/-- Witness for C5 at the concrete invalid payload `3` (a number, not an
object). -/
theorem C5_witness :
    isValidJobPayload (JSValue.num 3) = false ∧
    performPrint (JSValue.num 3) (fun _ => true) (fun _ => true) =
      { connAcquires := 0, submitAttempts := 0, delays := [], ok := false } ∧
    addToQueue (PrintQueue.mk 1 300 [] 0) 9 (JSValue.num 3) =
      (PrintQueue.mk 1 300 [] 0, [(9, Status.error)]) := by
  refine ⟨by decide, ?_, ?_⟩
  · exact (C5_invalid_payload_terminal (JSValue.num 3) (PrintQueue.mk 1 300 [] 0) 9
      (fun _ => true) (fun _ => true) (by decide)).1
  · exact (C5_invalid_payload_terminal (JSValue.num 3) (PrintQueue.mk 1 300 [] 0) 9
      (fun _ => true) (fun _ => true) (by decide)).2.2

/-- Evaluation of the retry loop when the connection succeeds and the
submit stage fails on every attempt: four attempts in total with backoffs
1000, 2000, 4000 ms, ending in a throw. -/
theorem performPrintGo_allFail_eval :
    performPrintGo (fun _ => true) (fun _ => false) 0 =
      { connAcquires := 4, submitAttempts := 4, delays := [1000, 2000, 4000], ok := false } := by
  simp [performPrintGo, MAX_RETRIES, RETRY_BACKOFF_BASE]

/-- C1 counterexample: with `MAX_RETRIES = 3` and a submit stage that fails
on every attempt, `performPrint` on a valid payload makes 4 physical submit
attempts, not 3 as the claim states. -/
theorem C1_counterexample :
    (performPrint examplePayload (fun _ => true) (fun _ => false)).submitAttempts = 4 ∧
    (performPrint examplePayload (fun _ => true) (fun _ => false)).submitAttempts ≠ 3 := by
  have hv : isValidJobPayload examplePayload = true := by decide
  rw [performPrint, if_pos hv, performPrintGo_allFail_eval]
  exact ⟨rfl, by decide⟩

/-- C1 amended: with `MAX_RETRIES = 3` and a connection/submit stage that
fails on every attempt, `performPrint` with `retryCount = 0` makes exactly
`MAX_RETRIES + 1 = 4` physical submit attempts (the initial attempt plus
`MAX_RETRIES` retries), awaits the strictly increasing backoffs
`RETRY_BACKOFF_BASE * 2 ^ r` for `r = 0, 1, 2` before the retries, and then
rethrows the last error. -/
theorem C1_amended (p : JSValue) (connOk submitOk : Nat → Bool)
    (hp : isValidJobPayload p = true)
    (hc : ∀ r, connOk r = true) (hs : ∀ r, submitOk r = false) :
    performPrint p connOk submitOk =
      { connAcquires := MAX_RETRIES + 1, submitAttempts := MAX_RETRIES + 1,
        delays := [RETRY_BACKOFF_BASE * 2 ^ 0, RETRY_BACKOFF_BASE * 2 ^ 1,
          RETRY_BACKOFF_BASE * 2 ^ 2],
        ok := false } ∧
    (performPrint p connOk submitOk).delays.Chain' (· < ·) := by
  have h1 : performPrint p connOk submitOk =
      { connAcquires := 4, submitAttempts := 4, delays := [1000, 2000, 4000], ok := false } := by
    rw [performPrint, if_pos hp]
    simp [performPrintGo, hc, hs, MAX_RETRIES, RETRY_BACKOFF_BASE]
  rw [h1]
  constructor
  · norm_num [MAX_RETRIES, RETRY_BACKOFF_BASE]
  · norm_num [List.chain'_cons, List.chain'_singleton]

/-- Witness for C1 amended at concrete oracles: connection always succeeds
and submit always fails. -/
theorem C1_witness :
    isValidJobPayload examplePayload = true ∧
    performPrint examplePayload (fun _ => true) (fun _ => false) =
      { connAcquires := MAX_RETRIES + 1, submitAttempts := MAX_RETRIES + 1,
        delays := [RETRY_BACKOFF_BASE * 2 ^ 0, RETRY_BACKOFF_BASE * 2 ^ 1,
          RETRY_BACKOFF_BASE * 2 ^ 2],
        ok := false } :=
  ⟨by decide,
    (C1_amended examplePayload (fun _ => true) (fun _ => false) (by decide)
      (fun _ => rfl) (fun _ => rfl)).1⟩

/-- The grace-wait loop exits only once the in-progress open has completed
or the 5000 ms bound is reached. -/
theorem graceWait_exit (d w : Nat) : d ≤ graceWait d w ∨ 5000 ≤ graceWait d w := by
  rw [graceWait]
  split
  · next h => exact graceWait_exit d (w + 200)
  · next h => omega
termination_by 5000 - w
decreasing_by omega

/-- Concrete run of the grace-wait loop: when the other open completes at
100 ms, the waiter leaves the loop after one 200 ms sleep. -/
theorem graceWait_100_eval : graceWait 100 0 = 200 := by
  rw [graceWait]; norm_num
  rw [graceWait]; norm_num

/-- Characterisation of `getPrinterConnection` when called with no ready
connection while another open is in progress. -/
theorem getPrinterConnection_initializing (otherDoneAt : Nat) (otherOk selfOk : Bool) :
    getPrinterConnection false true otherDoneAt otherOk selfOk =
      if otherDoneAt ≤ graceWait otherDoneAt 0 ∧ otherOk = true then
        { physicalOpen := false, waitedMs := graceWait otherDoneAt 0,
          handle := some Handle.fromOther }
      else if selfOk then
        { physicalOpen := true, waitedMs := graceWait otherDoneAt 0,
          handle := some Handle.fresh }
      else
        { physicalOpen := true, waitedMs := graceWait otherDoneAt 0, handle := none } := by
  unfold getPrinterConnection
  simp only [Bool.false_eq_true, if_false, if_true, Bool.true_and, Bool.and_eq_true,
    decide_eq_true_eq]

/-- C6 counterexample: with the in-progress open failing at 100 ms, the
waiting caller issues a second physical open after only 200 ms, well inside
the 5000 ms grace period — contradicting the claim that a second physical
open is attempted only after the grace period expires. -/
theorem C6_counterexample :
    (getPrinterConnection false true 100 false true).physicalOpen = true ∧
    (getPrinterConnection false true 100 false true).waitedMs = 200 ∧
    (getPrinterConnection false true 100 false true).waitedMs < 5000 := by
  rw [getPrinterConnection_initializing, graceWait_100_eval]
  norm_num

/-- C6 amended: while another open is in progress, if it completes
successfully within the grace period the waiting caller returns that same
handle with no physical open of its own; and whenever the waiting caller
does issue a physical open, either the 5000 ms grace period elapsed with
the open still in progress, or the in-progress open completed with
failure. -/
theorem C6_amended (otherDoneAt : Nat) (otherOk selfOk : Bool) :
    (otherDoneAt ≤ 5000 → otherOk = true →
      (getPrinterConnection false true otherDoneAt otherOk selfOk).physicalOpen = false ∧
      (getPrinterConnection false true otherDoneAt otherOk selfOk).handle =
        some Handle.fromOther) ∧
    ((getPrinterConnection false true otherDoneAt otherOk selfOk).physicalOpen = true →
      5000 ≤ (getPrinterConnection false true otherDoneAt otherOk selfOk).waitedMs ∨
      (otherDoneAt ≤ (getPrinterConnection false true otherDoneAt otherOk selfOk).waitedMs ∧
        otherOk = false)) := by
  have hchar := getPrinterConnection_initializing otherDoneAt otherOk selfOk
  have hgw := graceWait_exit otherDoneAt 0
  constructor
  · intro hle hok
    have hd : otherDoneAt ≤ graceWait otherDoneAt 0 := by
      rcases hgw with h | h
      · exact h
      · omega
    rw [hchar, if_pos ⟨hd, hok⟩]
    exact ⟨rfl, rfl⟩
  · intro hopen
    rw [hchar] at hopen ⊢
    by_cases hc : otherDoneAt ≤ graceWait otherDoneAt 0 ∧ otherOk = true
    · rw [if_pos hc] at hopen
      exact absurd hopen (by simp)
    · rw [if_neg hc] at hopen ⊢
      cases hok : otherOk with
      | true =>
          have hnle : ¬ otherDoneAt ≤ graceWait otherDoneAt 0 := fun hle => hc ⟨hle, hok⟩
          left
          rcases hgw with h | h
          · exact absurd h hnle
          · cases selfOk <;> simpa using h
      | false =>
          rcases hgw with h | h
          · right
            cases selfOk <;> simpa using h
          · left
            cases selfOk <;> simpa using h

/-- Witness for C6 amended: the other open completes successfully at
400 ms; the waiting caller observes the shared handle with no second
physical open. -/
theorem C6_witness :
    (getPrinterConnection false true 400 true true).physicalOpen = false ∧
    (getPrinterConnection false true 400 true true).handle = some Handle.fromOther :=
  (C6_amended 400 true true).1 (by norm_num) rfl

/-- C7 counterexample: the resubscribe delay
`LISTENER_BACKOFF_BASE * 2 ^ (listenerAttempt - 1)` has no finite ceiling —
it is not saturated, contradicting the claim. -/
theorem C7_counterexample : ¬ ∃ C, ∀ n, listenerBackoff n ≤ C := by
  rintro ⟨C, h⟩
  have h2 := h (C + 2)
  have he : listenerBackoff (C + 2) = 1000 * 2 ^ (C + 1) := by
    simp [listenerBackoff, LISTENER_BACKOFF_BASE, Nat.zero_max]
  rw [he] at h2
  have hp : C + 1 < 2 ^ (C + 1) := Nat.lt_two_pow _
  have hm : 2 ^ (C + 1) ≤ 1000 * 2 ^ (C + 1) := Nat.le_mul_of_pos_left _ (by norm_num)
  omega

/-- C7 amended: for every failure count `n ≥ 1` the next subscribe attempt
is scheduled after `LISTENER_BACKOFF_BASE * 2 ^ (n - 1)`; the attempt count
is uncapped and the delay does not saturate: it is strictly increasing in
the failure count and exceeds every bound. -/
theorem C7_amended :
    (∀ n, 1 ≤ n → listenerBackoff n = LISTENER_BACKOFF_BASE * 2 ^ (n - 1)) ∧
    (∀ n, 1 ≤ n → listenerBackoff n < listenerBackoff (n + 1)) ∧
    (∀ C, ∃ n, C < listenerBackoff n) := by
  refine ⟨?_, ?_, ?_⟩
  · intro n _
    simp [listenerBackoff, Nat.zero_max]
  · intro n hn
    simp only [listenerBackoff, LISTENER_BACKOFF_BASE, Nat.zero_max]
    have hlt : n - 1 < n + 1 - 1 := by omega
    exact mul_lt_mul_of_pos_left (Nat.pow_lt_pow_right (by norm_num) hlt) (by norm_num)
  · intro C
    refine ⟨C + 2, ?_⟩
    have he : listenerBackoff (C + 2) = 1000 * 2 ^ (C + 1) := by
      simp [listenerBackoff, LISTENER_BACKOFF_BASE, Nat.zero_max]
    rw [he]
    have hp : C + 1 < 2 ^ (C + 1) := Nat.lt_two_pow _
    have hm : 2 ^ (C + 1) ≤ 1000 * 2 ^ (C + 1) := Nat.le_mul_of_pos_left _ (by norm_num)
    omega

/-- Witness for C7 amended at failure count 1. -/
theorem C7_witness :
    listenerBackoff 1 = LISTENER_BACKOFF_BASE * 2 ^ 0 ∧
    listenerBackoff 1 < listenerBackoff 2 :=
  ⟨C7_amended.1 1 (by norm_num), C7_amended.2.1 1 (by norm_num)⟩

/-- C8 counterexample: a channel wedged in state "joining" is not in the
watchdog's restart list, so no fresh subscribe attempt is forced — the
tick returns `(restart = false, pull = true)`, contradicting the claim
that any non-Subscribed state forces a resubscribe. -/
theorem C8_counterexample : watchdogTick (some "joining") = (false, true) := by decide

/-- C8 amended: on every watchdog tick the reconciliation pull runs
unconditionally, and a fresh subscribe attempt is forced exactly when the
channel is absent or its uppercased state is in
`["CLOSED", "ERRORED", "CHANNEL_ERROR"]` (a channel wedged in "joining" is
therefore not restarted). -/
theorem C8_amended (channel : Option String) :
    (watchdogTick channel).2 = true ∧
    ((watchdogTick channel).1 = true ↔
      channel = none ∨
      ∃ st, channel = some st ∧ watchdogRestartStates.contains (jsToUpperCase st) = true) := by
  cases channel with
  | none => simp [watchdogTick]
  | some st => simp [watchdogTick]

/-- C9: evaluation of the consumption loop at two consecutive jobs. The
current `PrintQueue.next` chains jobs with no timed pause between one job's
completion and the next job's start, while the legacy `processQueue`
awaited a 3000 ms pause after each job — the deliberate inter-job pause the
claim describes exists only in the legacy code. -/
theorem C9_no_interjob_pause_eval :
    drainEvents [⟨1, JSValue.null⟩, ⟨2, JSValue.null⟩] =
      [QEvent.start 1, QEvent.done 1, QEvent.start 2, QEvent.done 2] ∧
    drainEventsLegacy [⟨1, JSValue.null⟩, ⟨2, JSValue.null⟩] =
      [QEvent.start 1, QEvent.done 1, QEvent.pauseMs 3000,
       QEvent.start 2, QEvent.done 2, QEvent.pauseMs 3000] :=
  ⟨rfl, rfl⟩
